import Mathlib

/-
Verification of the PolarSSL digest wrapper
(src/openvpn/polarssl/crypto/digest.hpp, namespace openvpn::PolarSSLCrypto).

The wrapper is embedded shallowly:

* `Backend` abstracts the PolarSSL `md.h` interface the wrapper calls
  (`md_info_from_string`, `md_info_from_type`, `md_init_ctx`, `md_starts`,
  `md_update`, `md_finish`, `md_free_ctx`).  PolarSSL is an external
  library, so it is a parameter of every operation; its hash state is
  abstracted as the list of accumulated input bytes.
* Backend-context acquisition and release are logged as `BEvent.alloc` /
  `BEvent.free` events so that resource-lifecycle claims are statable.
* The `OPENVPN_ENABLE_ASSERT` compile-time toggle is an explicit `Bool`
  parameter `assert` of every operation that contains a
  `check_initialized` call.
* A C++ data member that a constructor never assigns holds an
  indeterminate value; such a member is modelled as an `Option` that the
  constructor sets to `none`.  In particular `Digest::Digest(const
  std::string&)` and the private `Digest::Digest(const md_info_t*)`
  assign `digest_` but never `type_`.
* C++ exceptions are modelled as `Err` outcomes; an operation that can
  throw returns the outcome together with the post-state of the object.
-/

namespace PolarSSLCrypto

/-- One `md_info_t` entry of the backend's static algorithm table:
an opaque identity (`typ`, the backend constant) and the digest's output
size in bytes (`md_get_size` / `md_info->size`). -/
structure MdInfo where
  typ : Nat
  size : Nat
deriving DecidableEq

/-- The `POLARSSL_MD_*` constants the wrapper passes to
`md_info_from_type` (lines 72-92 of digest.hpp). -/
inductive PMdType
  | MD4 | MD5 | SHA1 | SHA224 | SHA256 | SHA384 | SHA512
deriving DecidableEq

/-- Modelled from the spec: the portable algorithm registry
(`openvpn/crypto/cryptoalgs.hpp` is not under src/).  It provides the
enumeration of portable algorithm identifiers, among them the
distinguished "no algorithm" value `NONE`, the digest identifiers the
wrapper's table covers, and further identifiers (here `OTHER n`) that
have no entry in the wrapper's fixed table. -/
inductive CryptoAlg
  | NONE | MD4 | MD5 | SHA1 | SHA224 | SHA256 | SHA384 | SHA512
  | OTHER (n : Nat)
deriving DecidableEq

/-- Modelled from the spec: `CryptoAlgs::name`, the registry's function
mapping a portable identifier to its canonical display name. -/
def CryptoAlgs.name : CryptoAlg → String
  | CryptoAlg.NONE => "NONE"
  | CryptoAlg.MD4 => "MD4"
  | CryptoAlg.MD5 => "MD5"
  | CryptoAlg.SHA1 => "SHA1"
  | CryptoAlg.SHA224 => "SHA224"
  | CryptoAlg.SHA256 => "SHA256"
  | CryptoAlg.SHA384 => "SHA384"
  | CryptoAlg.SHA512 => "SHA512"
  | CryptoAlg.OTHER n => "ALG-" ++ toString n

/-- The exceptions declared in digest.hpp, unified in one type.
`digest_not_found` is `polarssl_digest_not_found` (carries the queried
name), `digest_err` is `polarssl_digest` (carries the message built by
`OPENVPN_THROW`), `digest_undefined` is `polarssl_digest_undefined`,
`ctx_uninitialized` is `polarssl_digest_uninitialized`,
`ctx_final_overflow` is `polarssl_digest_final_overflow` (declared but
never raised in this file), `ctx_error` is `polarssl_digest_error`
(carries the backend diagnostic string). -/
inductive Err
  | digest_not_found (name : String)
  | digest_err (msg : String)
  | digest_undefined
  | ctx_uninitialized
  | ctx_final_overflow
  | ctx_error (msg : String)
deriving DecidableEq

/-- A backend-context lifecycle event: `md_init_ctx` acquiring the
context (`alloc`) or `md_free_ctx` releasing it (`free`). -/
inductive BEvent
  | alloc | free
deriving DecidableEq

/-- The PolarSSL `md.h` interface as the wrapper consumes it.  Lookup
functions return the table entry or `none` (NULL).  The fallible
context operations are represented by success predicates (`true` means
the call returns `0`, `false` means it returns a negative error code);
`md_init_ctx` acquires the context only when it succeeds.  `digestOf`
is the byte string `md_finish` writes for a given algorithm and
accumulated input.  The `Option MdInfo` arguments stand for the
possibly-NULL `md_info` pointer the wrapper hands over. -/
structure Backend where
  mdInfoFromString : String → Option MdInfo
  mdInfoFromType : PMdType → Option MdInfo
  initOk : Option MdInfo → Bool
  startsOk : Option MdInfo → Bool
  updateOk : Option MdInfo → List Nat → Bool
  finishOk : Option MdInfo → Bool
  digestOf : Option MdInfo → List Nat → List Nat

/-- Backend well-formedness used by size-contract claims: `md_finish`
writes exactly `md_info->size` bytes. -/
def Backend.FinishExact (b : Backend) : Prop :=
  ∀ mi s, (b.digestOf (some mi) s).length = mi.size

/-- Backend well-formedness used by table claims: `md_info_from_type`
returns a valid entry for every compiled-in constant. -/
def Backend.TotalTypes (b : Backend) : Prop :=
  ∀ t, (b.mdInfoFromType t).isSome = true

/-- The `openvpn::PolarSSLCrypto::Digest` class: a descriptor holding
the backend handle `digest_` (`const md_info_t *`, `none` = NULL) and
the portable identifier `type_` (`CryptoAlgs::Type`; `none` models an
indeterminate, never-assigned member). -/
structure Digest where
  digest_ : Option MdInfo
  type_ : Option CryptoAlg
deriving DecidableEq

/-- `Digest::reset` (lines 114-118): `digest_ = NULL; type_ = NONE;`. -/
def Digest.reset (_d : Digest) : Digest :=
  { digest_ := none, type_ := some CryptoAlg.NONE }

/-- `Digest::Digest()` (lines 53-56): default constructor, calls
`reset()` on the otherwise indeterminate members. -/
def Digest.mkDefault : Digest :=
  Digest.reset { digest_ := none, type_ := none }

/-- `Digest::Digest(const std::string& name)` (lines 58-63): resolves
the name through `md_info_from_string`; throws
`polarssl_digest_not_found(name)` when the lookup returns NULL.  The
member `type_` is never assigned and stays indeterminate. -/
def Digest.mkByName (b : Backend) (name : String) : Except Err Digest :=
  match b.mdInfoFromString name with
  | none => Except.error (Err.digest_not_found name)
  | some mi => Except.ok { digest_ := some mi, type_ := none }

/-- `Digest::Digest(const CryptoAlgs::Type alg)` (lines 65-96):
`switch (type_ = alg)` stores the identifier, then each case resolves
the matching `POLARSSL_MD_*` constant through `md_info_from_type`
(without checking the result for NULL); the `NONE` case calls
`reset()`; the default case throws `polarssl_digest` with the message
`CryptoAlgs::name(alg) << ": not usable"`. -/
def Digest.mkByType (b : Backend) (alg : CryptoAlg) : Except Err Digest :=
  match alg with
  | CryptoAlg.NONE =>
      Except.ok (Digest.reset { digest_ := none, type_ := some alg })
  | CryptoAlg.MD4 =>
      Except.ok { digest_ := b.mdInfoFromType PMdType.MD4, type_ := some alg }
  | CryptoAlg.MD5 =>
      Except.ok { digest_ := b.mdInfoFromType PMdType.MD5, type_ := some alg }
  | CryptoAlg.SHA1 =>
      Except.ok { digest_ := b.mdInfoFromType PMdType.SHA1, type_ := some alg }
  | CryptoAlg.SHA224 =>
      Except.ok { digest_ := b.mdInfoFromType PMdType.SHA224, type_ := some alg }
  | CryptoAlg.SHA256 =>
      Except.ok { digest_ := b.mdInfoFromType PMdType.SHA256, type_ := some alg }
  | CryptoAlg.SHA384 =>
      Except.ok { digest_ := b.mdInfoFromType PMdType.SHA384, type_ := some alg }
  | CryptoAlg.SHA512 =>
      Except.ok { digest_ := b.mdInfoFromType PMdType.SHA512, type_ := some alg }
  | CryptoAlg.OTHER n =>
      Except.error
        (Err.digest_err (CryptoAlgs.name (CryptoAlg.OTHER n) ++ ": not usable"))

/-- The private `Digest::Digest(const md_info_t *digest)` (line 112):
initialises `digest_` only; `type_` stays indeterminate. -/
def Digest.mkPrivate (digest : Option MdInfo) : Digest :=
  { digest_ := digest, type_ := none }

/-- `Digest::name` (lines 98-101): `return CryptoAlgs::name(type_);`.
When `type_` was never assigned its value is indeterminate, so the
returned string has no defined value: modelled as `none`. -/
def Digest.name (d : Digest) : Option String :=
  d.type_.map CryptoAlgs.name

/-- `Digest::defined` (line 109): `digest_ != NULL`. -/
def Digest.defined (d : Digest) : Bool :=
  d.digest_.isSome

/-- `Digest::get` (lines 120-124): `check_initialized()` (which throws
`polarssl_digest_undefined` iff `OPENVPN_ENABLE_ASSERT` is on and
`digest_` is NULL), then returns `digest_`. -/
def Digest.get (assert : Bool) (d : Digest) : Except Err (Option MdInfo) :=
  if assert && d.digest_.isNone then Except.error Err.digest_undefined
  else Except.ok d.digest_

/-- The `md_context_t ctx` member of `DigestContext`: the bound table
entry `md_info` (`none` = NULL), whether the backend computation
context `md_ctx` is currently allocated, and the abstracted running
hash state (the bytes accumulated since `md_starts`). -/
structure MdContextT where
  md_info : Option MdInfo
  md_ctx : Bool
  acc : List Nat
deriving DecidableEq

/-- The `openvpn::PolarSSLCrypto::DigestContext` class state: the
explicit `initialized` flag and the `md_context_t ctx` member. -/
structure DigestContext where
  initialized : Bool
  ctx : MdContextT
deriving DecidableEq

/-- Outcome of a `DigestContext` operation that can throw: the raised
exception (or `none`), the post-state of the object, and the backend
lifecycle events the call performed, in order. -/
structure COut where
  err : Option Err
  st : DigestContext
  evs : List BEvent
deriving DecidableEq

/-- `DigestContext::DigestContext()` (lines 149-152): sets
`initialized(false)`; the `ctx` member is left indeterminate, so it is
a parameter. -/
def DigestContext.mkDefault (c0 : MdContextT) : DigestContext :=
  { initialized := false, ctx := c0 }

/-- `DigestContext::erase` (lines 197-204): if `initialized`, calls
`md_free_ctx(&ctx)` (releasing the backend context) and clears the
flag; otherwise does nothing.  Returns the new state and the release
events performed.  `~DigestContext()` (line 160) is exactly
`erase()`. -/
def DigestContext.erase (s : DigestContext) : DigestContext × List BEvent :=
  if s.initialized then
    ({ initialized := false, ctx := { s.ctx with md_ctx := false } },
     [BEvent.free])
  else (s, [])

/-- `DigestContext::size_` (lines 206-209): `ctx.md_info->size`; the
value is undefined when `md_info` is NULL, hence the `Option`. -/
def DigestContext.size_ (s : DigestContext) : Option Nat :=
  s.ctx.md_info.map MdInfo.size

/-- `DigestContext::init` (lines 162-171): `erase()`, then
`ctx.md_ctx = NULL`, then `md_init_ctx(&ctx, digest.get())` — on
failure throws `polarssl_digest_error("md_init_ctx")` — then
`md_starts(&ctx)` — on failure throws
`polarssl_digest_error("md_starts")` — and only then
`initialized = true`.  A successful `md_init_ctx` binds `md_info`,
allocates `md_ctx` (event `alloc`) and a successful `md_starts` resets
the running hash state. -/
def DigestContext.init (b : Backend) (assert : Bool) (s : DigestContext)
    (digest : Digest) : COut :=
  let p := DigestContext.erase s
  let s1 : DigestContext := { p.1 with ctx := { p.1.ctx with md_ctx := false } }
  match Digest.get assert digest with
  | Except.error e => { err := some e, st := s1, evs := p.2 }
  | Except.ok info =>
    if b.initOk info then
      let s2 : DigestContext :=
        { s1 with ctx := { md_info := info, md_ctx := true, acc := s1.ctx.acc } }
      if b.startsOk info then
        { err := none,
          st := { s2 with initialized := true, ctx := { s2.ctx with acc := [] } },
          evs := p.2 ++ [BEvent.alloc] }
      else
        { err := some (Err.ctx_error "md_starts"), st := s2,
          evs := p.2 ++ [BEvent.alloc] }
    else
      { err := some (Err.ctx_error "md_init_ctx"), st := s1, evs := p.2 }

/-- `DigestContext::DigestContext(const Digest&)` (lines 154-158):
sets `initialized(false)` (the `ctx` member indeterminate, parameter
`c0`) and calls `init(digest)`. -/
def DigestContext.mkFromDigest (b : Backend) (assert : Bool) (c0 : MdContextT)
    (digest : Digest) : COut :=
  DigestContext.init b assert (DigestContext.mkDefault c0) digest

/-- `DigestContext::update` (lines 173-178): `check_initialized()`
(throws `polarssl_digest_uninitialized` iff `OPENVPN_ENABLE_ASSERT` is
on and not `initialized`), then `md_update(&ctx, in, size)` — on
failure throws `polarssl_digest_error("md_update")`, on success the
bytes are appended to the running hash state. -/
def DigestContext.update (b : Backend) (assert : Bool) (s : DigestContext)
    (input : List Nat) : COut :=
  if assert && !s.initialized then
    { err := some Err.ctx_uninitialized, st := s, evs := [] }
  else if b.updateOk s.ctx.md_info input then
    { err := none,
      st := { s with ctx := { s.ctx with acc := s.ctx.acc ++ input } },
      evs := [] }
  else { err := some (Err.ctx_error "md_update"), st := s, evs := [] }

/-- Outcome of `DigestContext::final`: raised exception (or `none`),
post-state, the bytes `md_finish` wrote into the caller's output
buffer, and the returned byte count. -/
structure FinalR where
  err : Option Err
  st : DigestContext
  written : List Nat
  ret : Option Nat
deriving DecidableEq

/-- `DigestContext::final` (lines 180-186): `check_initialized()`
(as in `update`), then `md_finish(&ctx, out)` — on failure throws
`polarssl_digest_error("md_finish")` — then returns `size_()`.
`md_finish` writes the digest of the accumulated input into the
caller's buffer. -/
def DigestContext.final (b : Backend) (assert : Bool) (s : DigestContext) :
    FinalR :=
  if assert && !s.initialized then
    { err := some Err.ctx_uninitialized, st := s, written := [], ret := none }
  else if b.finishOk s.ctx.md_info then
    { err := none, st := s, written := b.digestOf s.ctx.md_info s.ctx.acc,
      ret := DigestContext.size_ s }
  else
    { err := some (Err.ctx_error "md_finish"), st := s, written := [],
      ret := none }

/-- `DigestContext::size` (lines 188-192): `check_initialized()` then
`size_()`. -/
def DigestContext.size (assert : Bool) (s : DigestContext) :
    Except Err (Option Nat) :=
  if assert && !s.initialized then Except.error Err.ctx_uninitialized
  else Except.ok (DigestContext.size_ s)

/-- `DigestContext::is_initialized` (line 194). -/
def DigestContext.is_initialized (s : DigestContext) : Bool :=
  s.initialized

/-- The wrapper's fixed portable-identifier → backend-constant table:
exactly the non-`NONE` cases of the `switch` in
`Digest::Digest(const CryptoAlgs::Type)`. -/
def mdTypeOf : CryptoAlg → Option PMdType
  | CryptoAlg.MD4 => some PMdType.MD4
  | CryptoAlg.MD5 => some PMdType.MD5
  | CryptoAlg.SHA1 => some PMdType.SHA1
  | CryptoAlg.SHA224 => some PMdType.SHA224
  | CryptoAlg.SHA256 => some PMdType.SHA256
  | CryptoAlg.SHA384 => some PMdType.SHA384
  | CryptoAlg.SHA512 => some PMdType.SHA512
  | _ => none

/-- The descriptor invariant of the spec: either identifier and handle
are both undefined together (`type_ == NONE`, `digest_ == NULL`), or
both are set and mutually consistent — the handle is the backend's
entry for the identifier under the wrapper's fixed table. -/
def Digest.invariant (b : Backend) (d : Digest) : Prop :=
  (d.type_ = some CryptoAlg.NONE ∧ d.digest_ = none) ∨
  (∃ alg t mi, d.type_ = some alg ∧ d.digest_ = some mi ∧
    mdTypeOf alg = some t ∧ b.mdInfoFromType t = some mi)

/-- The weakest reading of the claimed invariant, dropping even the
consistency requirement: identifier and handle both undefined, or both
set (to anything). -/
def Digest.bothOrNeither (d : Digest) : Prop :=
  (d.type_ = some CryptoAlg.NONE ∧ d.digest_ = none) ∨
  (∃ alg mi, d.type_ = some alg ∧ d.digest_ = some mi)

/-- A concrete backend algorithm table with the standard digest output
sizes, for concrete evaluations. -/
def mdInfoStd : PMdType → MdInfo
  | PMdType.MD4 => { typ := 2, size := 16 }
  | PMdType.MD5 => { typ := 3, size := 16 }
  | PMdType.SHA1 => { typ := 4, size := 20 }
  | PMdType.SHA224 => { typ := 5, size := 28 }
  | PMdType.SHA256 => { typ := 6, size := 32 }
  | PMdType.SHA384 => { typ := 7, size := 48 }
  | PMdType.SHA512 => { typ := 8, size := 64 }

/-- A concrete well-behaved backend: every compiled-in constant
resolves, the registry knows "MD5" and "SHA1" by name, every context
operation succeeds, and `md_finish` writes exactly `size` bytes. -/
def bStd : Backend :=
  { mdInfoFromString := fun n =>
      if n = "MD5" then some (mdInfoStd PMdType.MD5)
      else if n = "SHA1" then some (mdInfoStd PMdType.SHA1)
      else none
    mdInfoFromType := fun t => some (mdInfoStd t)
    initOk := fun _ => true
    startsOk := fun _ => true
    updateOk := fun _ _ => true
    finishOk := fun _ => true
    digestOf := fun mi _ =>
      match mi with
      | some i => List.replicate i.size 0
      | none => [] }

/-- `bStd` with `md_starts` always failing, to exercise the
init-failure path after a successful `md_init_ctx`. -/
def bStartsFail : Backend :=
  { bStd with startsOk := fun _ => false }

/-- A concrete indeterminate initial `ctx` member (all fields in their
cheapest state). -/
def c0empty : MdContextT :=
  { md_info := none, md_ctx := false, acc := [] }

/-- A concrete defined MD5 descriptor, as produced by
`Digest::Digest(CryptoAlgs::MD5)` against `bStd`. -/
def dMD5 : Digest :=
  { digest_ := some (mdInfoStd PMdType.MD5), type_ := some CryptoAlg.MD5 }

/-- The descriptor `Digest::Digest(const std::string&)` builds for
"MD5" against `bStd`: handle set, identifier never assigned. -/
def dByNameMD5 : Digest :=
  { digest_ := some (mdInfoStd PMdType.MD5), type_ := none }

/-- The state of a fresh `DigestContext` after a successful
`init(dMD5)` against `bStd` (the `Ready` state). -/
def sReady : DigestContext :=
  (DigestContext.init bStd true (DigestContext.mkDefault c0empty) dMD5).st

/-- The run of `DigestContext::init` on a fresh context with a defined
MD5 descriptor against a backend whose `md_init_ctx` succeeds and
whose `md_starts` fails. -/
def c1run : COut :=
  DigestContext.init bStartsFail true (DigestContext.mkDefault c0empty) dMD5

/-- On any successful `DigestContext::init` the `initialized` flag is
set; on any failing `init` it is left clear. -/
theorem init_err_flag (b : Backend) (assert : Bool) (s : DigestContext)
    (d : Digest) :
    ((DigestContext.init b assert s d).err = none →
      (DigestContext.init b assert s d).st.initialized = true) ∧
    (∀ e, (DigestContext.init b assert s d).err = some e →
      (DigestContext.init b assert s d).st.initialized = false) := by
  have herase : (DigestContext.erase s).1.initialized = false := by
    unfold DigestContext.erase
    by_cases h : s.initialized <;> simp [h]
  unfold DigestContext.init
  cases hg : Digest.get assert d with
  | error e => simp [hg, herase]
  | ok info =>
    by_cases hi : b.initOk info
    · by_cases hs : b.startsOk info
      · simp [hg, hi, hs]
      · simp [hg, hi, hs, herase]
    · simp [hg, hi, herase]

/-- C1: with a backend whose context allocation (`md_init_ctx`)
succeeds and whose start-of-stream call (`md_starts`) fails, `init` on
a fresh context with a defined descriptor raises
`polarssl_digest_error("md_starts")` after acquiring the backend
context (`alloc` event) without releasing it: the post-state still
holds `md_ctx` allocated, yet `initialized` is false, so the
destructor (`erase`) releases nothing either.  The backend context is
leaked, contradicting the claim that it is released before the error
propagates. -/
theorem c1_starts_failure_leaks :
    c1run.err = some (Err.ctx_error "md_starts") ∧
    c1run.evs = [BEvent.alloc] ∧
    c1run.st.ctx.md_ctx = true ∧
    c1run.st.initialized = false ∧
    DigestContext.erase c1run.st = (c1run.st, []) :=
  ⟨rfl, rfl, rfl, rfl, rfl⟩

/-- C5: resolving the `NONE` portable identifier succeeds (raises
nothing) and yields a descriptor with `defined() == false` (and both
members in their undefined state). -/
theorem c5_none_resolves (b : Backend) :
    Digest.mkByType b CryptoAlg.NONE =
      Except.ok { digest_ := none, type_ := some CryptoAlg.NONE } ∧
    ∀ d, Digest.mkByType b CryptoAlg.NONE = Except.ok d →
      d.defined = false := by
  refine ⟨rfl, ?_⟩
  intro d h
  cases h
  rfl

/-- C2 counterexample: resolving the registered name "MD5" through
`Digest::Digest(const std::string&)` succeeds and yields a descriptor
whose handle is set while `type_` was never assigned (indeterminate):
even the weakest reading of the claimed invariant — identifier and
handle both undefined or both set — fails, so the by-name constructor
does not establish it. -/
theorem c2_byname_breaks_invariant :
    Digest.mkByName bStd "MD5" = Except.ok dByNameMD5 ∧
    ¬ Digest.bothOrNeither dByNameMD5 := by
  refine ⟨rfl, ?_⟩
  rintro (⟨h, -⟩ | ⟨alg, mi, h, -⟩) <;> exact Option.noConfusion h

/-- C2 (amended): the invariant — identifier and handle both undefined
together, or both set with the handle the backend's entry for the
identifier — is established by the default constructor, preserved by
`reset`, and established by the by-identifier constructor whenever the
backend maps every compiled-in constant; the by-name constructor and
the private backend-handle constructor set the handle but leave the
identifier indeterminate, so they do not establish it. -/
theorem c2_invariant_amended (b : Backend) (htot : b.TotalTypes) :
    Digest.invariant b Digest.mkDefault ∧
    (∀ d, Digest.invariant b (Digest.reset d)) ∧
    (∀ alg d, Digest.mkByType b alg = Except.ok d → Digest.invariant b d) ∧
    (∀ n d, Digest.mkByName b n = Except.ok d →
      d.digest_.isSome = true ∧ d.type_ = none) ∧
    (∀ mi, (Digest.mkPrivate mi).digest_ = mi ∧
      (Digest.mkPrivate mi).type_ = none) := by
  have table : ∀ (alg : CryptoAlg) (t : PMdType), mdTypeOf alg = some t →
      Digest.invariant b { digest_ := b.mdInfoFromType t, type_ := some alg } := by
    intro alg t ht
    obtain ⟨mi, hmi⟩ := Option.isSome_iff_exists.mp (htot t)
    exact Or.inr ⟨alg, t, mi, rfl, hmi, ht, hmi⟩
  refine ⟨Or.inl ⟨rfl, rfl⟩, fun d => Or.inl ⟨rfl, rfl⟩, ?_, ?_, fun mi => ⟨rfl, rfl⟩⟩
  · intro alg d h
    cases alg <;> simp [Digest.mkByType] at h <;> subst h
    case NONE => exact Or.inl ⟨rfl, rfl⟩
    case MD4 => exact table CryptoAlg.MD4 PMdType.MD4 rfl
    case MD5 => exact table CryptoAlg.MD5 PMdType.MD5 rfl
    case SHA1 => exact table CryptoAlg.SHA1 PMdType.SHA1 rfl
    case SHA224 => exact table CryptoAlg.SHA224 PMdType.SHA224 rfl
    case SHA256 => exact table CryptoAlg.SHA256 PMdType.SHA256 rfl
    case SHA384 => exact table CryptoAlg.SHA384 PMdType.SHA384 rfl
    case SHA512 => exact table CryptoAlg.SHA512 PMdType.SHA512 rfl
  · intro n d h
    unfold Digest.mkByName at h
    cases hm : b.mdInfoFromString n <;> rw [hm] at h
    · exact Except.noConfusion h
    · cases h
      exact ⟨rfl, rfl⟩

/-- C2 witness: the amended invariant theorem applied to the concrete
backend `bStd`. -/
theorem c2_invariant_witness :
    Digest.invariant bStd Digest.mkDefault ∧
    (Digest.mkPrivate (some (mdInfoStd PMdType.MD5))).type_ = none := by
  have h := c2_invariant_amended bStd (fun t => rfl)
  exact ⟨h.1, (h.2.2.2.2 (some (mdInfoStd PMdType.MD5))).2⟩

/-- C3 counterexample: a descriptor built through the private
backend-handle constructor (and likewise through the by-name
constructor) has an indeterminate `type_`, so
`name()` — `CryptoAlgs::name(type_)` — has no well-defined value for
it, contradicting the claim that `name()` is well-defined for those
constructors. -/
theorem c3_name_indeterminate :
    (Digest.mkPrivate (some (mdInfoStd PMdType.MD5))).name = none ∧
    Digest.mkByName bStd "MD5" = Except.ok dByNameMD5 ∧
    dByNameMD5.name = none :=
  ⟨rfl, rfl, rfl⟩

/-- C3 (amended): `name()` never raises and returns the display name
of the stored portable identifier; the value is well-defined for
default-constructed and by-identifier-constructed descriptors, but for
by-name-constructed and private-backend-handle-constructed descriptors
the stored identifier is indeterminate, so `name()` has no
well-defined value there. -/
theorem c3_name_amended (b : Backend) :
    Digest.mkDefault.name = some (CryptoAlgs.name CryptoAlg.NONE) ∧
    (∀ alg d, Digest.mkByType b alg = Except.ok d →
      d.name = some (CryptoAlgs.name alg)) ∧
    (∀ n d, Digest.mkByName b n = Except.ok d → d.name = none) ∧
    (∀ mi, (Digest.mkPrivate mi).name = none) := by
  refine ⟨rfl, ?_, ?_, fun mi => rfl⟩
  · intro alg d h
    cases alg <;> simp [Digest.mkByType] at h <;> subst h <;> rfl
  · intro n d h
    unfold Digest.mkByName at h
    cases hm : b.mdInfoFromString n <;> rw [hm] at h
    · exact Except.noConfusion h
    · cases h
      rfl

/-- C5 witness: the `NONE` resolution evaluated against the concrete
backend `bStd`. -/
theorem c5_none_resolves_witness :
    Digest.mkByType bStd CryptoAlg.NONE =
      Except.ok { digest_ := none, type_ := some CryptoAlg.NONE } ∧
    ({ digest_ := none, type_ := some CryptoAlg.NONE } : Digest).defined =
      false :=
  ⟨(c5_none_resolves bStd).1,
   (c5_none_resolves bStd).2 _ (c5_none_resolves bStd).1⟩

/-- C3 witness: the amended `name()` theorem evaluated at the default
constructor and the private backend-handle constructor. -/
theorem c3_name_amended_witness :
    Digest.mkDefault.name = some (CryptoAlgs.name CryptoAlg.NONE) ∧
    (Digest.mkPrivate (some (mdInfoStd PMdType.MD5))).name = none :=
  ⟨(c3_name_amended bStd).1,
   (c3_name_amended bStd).2.2.2 (some (mdInfoStd PMdType.MD5))⟩

/-- C4: resolving a textual name absent from the backend registry
raises `polarssl_digest_not_found` carrying the queried name, and
resolving a portable identifier other than `NONE` that has no entry in
the wrapper's fixed table raises `polarssl_digest` carrying the
algorithm's display name (message `name << ": not usable"`); the
equations pin the outcome, so no other outcome occurs. -/
theorem c4_unknown_rejects (b : Backend) (n : String) (alg : CryptoAlg)
    (hn : b.mdInfoFromString n = none) (ha : mdTypeOf alg = none)
    (hne : alg ≠ CryptoAlg.NONE) :
    Digest.mkByName b n = Except.error (Err.digest_not_found n) ∧
    Digest.mkByType b alg =
      Except.error (Err.digest_err (CryptoAlgs.name alg ++ ": not usable")) := by
  constructor
  · unfold Digest.mkByName
    rw [hn]
  · cases alg
    case NONE => exact absurd rfl hne
    case OTHER n => rfl
    all_goals exact Option.noConfusion ha

/-- C4 witness: the unregistered name "FOO" and the unmapped
identifier `OTHER 0` against the concrete backend `bStd`. -/
theorem c4_unknown_rejects_witness :
    Digest.mkByName bStd "FOO" = Except.error (Err.digest_not_found "FOO") ∧
    Digest.mkByType bStd (CryptoAlg.OTHER 0) =
      Except.error (Err.digest_err
        (CryptoAlgs.name (CryptoAlg.OTHER 0) ++ ": not usable")) :=
  c4_unknown_rejects bStd "FOO" (CryptoAlg.OTHER 0) (by decide) rfl
    (fun h => CryptoAlg.noConfusion h)

/-- C6: with strict state checking enabled (`OPENVPN_ENABLE_ASSERT`),
`update` and `final` on a stream whose `initialized` flag was never
set raise `polarssl_digest_uninitialized`, leave the state unchanged,
and perform no backend lifecycle events; the outcome is the same for
every backend, so no backend operation is consulted. -/
theorem c6_state_guard (b : Backend) (s : DigestContext) (input : List Nat)
    (h : s.initialized = false) :
    DigestContext.update b true s input =
      { err := some Err.ctx_uninitialized, st := s, evs := [] } ∧
    DigestContext.final b true s =
      { err := some Err.ctx_uninitialized, st := s, written := [],
        ret := none } := by
  constructor <;> simp [DigestContext.update, DigestContext.final, h]

/-- C6 witness: a freshly constructed stream against `bStd`. -/
theorem c6_state_guard_witness :
    DigestContext.update bStd true (DigestContext.mkDefault c0empty) [1, 2, 3] =
      { err := some Err.ctx_uninitialized,
        st := DigestContext.mkDefault c0empty, evs := [] } ∧
    DigestContext.final bStd true (DigestContext.mkDefault c0empty) =
      { err := some Err.ctx_uninitialized,
        st := DigestContext.mkDefault c0empty, written := [], ret := none } :=
  c6_state_guard bStd (DigestContext.mkDefault c0empty) [1, 2, 3] rfl

/-- C7: on an initialized stream bound to `md_info = mi`, with a
backend whose `md_finish` writes exactly `md_info->size` bytes, a
successful `final` writes exactly `size()` bytes (which therefore fit
any buffer of capacity ≥ `size()`) and returns that byte count, equal
to `size()`; when the backend's `md_finish` fails, `final` raises
`polarssl_digest_error("md_finish")` instead. -/
theorem c7_final_contract (b : Backend) (s : DigestContext) (mi : MdInfo)
    (cap : Nat) (hwf : b.FinishExact) (hin : s.initialized = true)
    (hmi : s.ctx.md_info = some mi) (hcap : mi.size ≤ cap) :
    (b.finishOk (some mi) = true →
      (DigestContext.final b true s).err = none ∧
      (DigestContext.final b true s).written.length = mi.size ∧
      (DigestContext.final b true s).written.length ≤ cap ∧
      (DigestContext.final b true s).ret = some mi.size ∧
      DigestContext.size true s = Except.ok (some mi.size)) ∧
    (b.finishOk (some mi) = false →
      (DigestContext.final b true s).err =
        some (Err.ctx_error "md_finish")) := by
  constructor
  · intro hok
    simp [DigestContext.final, DigestContext.size, DigestContext.size_,
      hin, hmi, hok, hwf mi s.ctx.acc, hcap]
  · intro hok
    simp [DigestContext.final, hin, hmi, hok]

/-- C7 witness: the `Ready` state `sReady` (MD5, output size 16)
against `bStd`, with a buffer capacity of 16. -/
theorem c7_final_contract_witness :
    (DigestContext.final bStd true sReady).err = none ∧
    (DigestContext.final bStd true sReady).written.length = 16 ∧
    (DigestContext.final bStd true sReady).ret = some 16 ∧
    DigestContext.size true sReady = Except.ok (some 16) := by
  have h := (c7_final_contract bStd sReady (mdInfoStd PMdType.MD5) 16
    (fun mi s => by simp [bStd]) rfl rfl (by decide)).1 rfl
  exact ⟨h.1, h.2.1, h.2.2.2.1, h.2.2.2.2⟩

/-- C8: two consecutive successful `init` calls on the same stream
(defined descriptors, backend acquisition and start succeeding): the
first performs exactly the acquisition (`[alloc]`), the second first
releases the previous backend state and then acquires the new one
(`[free, alloc]`), so the first acquisition is released exactly once;
destroying the stream afterwards releases the second acquisition, so
over the whole life every `alloc` is matched by exactly one `free` and
nothing is leaked. -/
theorem c8_reinit_releases (b : Backend) (assert : Bool) (c0 : MdContextT)
    (d1 d2 : Digest) (m1 m2 : MdInfo)
    (h1 : d1.digest_ = some m1) (h2 : d2.digest_ = some m2)
    (hi1 : b.initOk (some m1) = true) (hs1 : b.startsOk (some m1) = true)
    (hi2 : b.initOk (some m2) = true) (hs2 : b.startsOk (some m2) = true) :
    (DigestContext.init b assert (DigestContext.mkDefault c0) d1).err = none ∧
    (DigestContext.init b assert (DigestContext.mkDefault c0) d1).evs =
      [BEvent.alloc] ∧
    (DigestContext.init b assert
      (DigestContext.init b assert (DigestContext.mkDefault c0) d1).st
      d2).err = none ∧
    (DigestContext.init b assert
      (DigestContext.init b assert (DigestContext.mkDefault c0) d1).st
      d2).evs = [BEvent.free, BEvent.alloc] ∧
    (DigestContext.erase
      (DigestContext.init b assert
        (DigestContext.init b assert (DigestContext.mkDefault c0) d1).st
        d2).st).2 = [BEvent.free] := by
  simp [DigestContext.init, DigestContext.erase, DigestContext.mkDefault,
    Digest.get, h1, h2, hi1, hs1, hi2, hs2]

/-- C8 witness: two `init(dMD5)` calls on a fresh stream against
`bStd`. -/
theorem c8_reinit_releases_witness :
    (DigestContext.init bStd true (DigestContext.mkDefault c0empty) dMD5).evs =
      [BEvent.alloc] ∧
    (DigestContext.init bStd true
      (DigestContext.init bStd true (DigestContext.mkDefault c0empty) dMD5).st
      dMD5).evs = [BEvent.free, BEvent.alloc] := by
  have h := c8_reinit_releases bStd true c0empty dMD5 dMD5
    (mdInfoStd PMdType.MD5) (mdInfoStd PMdType.MD5) rfl rfl rfl rfl rfl rfl
  exact ⟨h.2.1, h.2.2.2.1⟩

/-- C9: the destructor (`erase`) of a stream in the `Ready` state
(`initialized = true`) releases the backend context exactly once
(`[free]`), clears the flag, and a further `erase` releases nothing
more; on a stream in the `Empty` state (`initialized = false`, i.e.
never successfully initialized or already released) it performs no
release at all and leaves the state untouched. -/
theorem c9_destructor_release (s : DigestContext) :
    (s.initialized = true →
      (DigestContext.erase s).2 = [BEvent.free] ∧
      (DigestContext.erase s).1.initialized = false ∧
      DigestContext.erase (DigestContext.erase s).1 =
        ((DigestContext.erase s).1, [])) ∧
    (s.initialized = false → DigestContext.erase s = (s, [])) := by
  constructor <;> intro h <;> simp [DigestContext.erase, h]

/-- C9 witness: the `Ready` state `sReady` and a freshly constructed
stream. -/
theorem c9_destructor_release_witness :
    (DigestContext.erase sReady).2 = [BEvent.free] ∧
    DigestContext.erase (DigestContext.mkDefault c0empty) =
      (DigestContext.mkDefault c0empty, []) :=
  ⟨((c9_destructor_release sReady).1 rfl).1,
   (c9_destructor_release (DigestContext.mkDefault c0empty)).2 rfl⟩

/-- C10: the converting constructor `DigestContext(const Digest&)` is
equivalent to default construction followed by `init`: same outcome,
same post-state, same backend events; on success the constructed
stream satisfies `is_initialized() == true`, and on `init` failure the
same error is raised with the stream left uninitialized. -/
theorem c10_ctor_equiv (b : Backend) (assert : Bool) (c0 : MdContextT)
    (d : Digest) :
    DigestContext.mkFromDigest b assert c0 d =
      DigestContext.init b assert (DigestContext.mkDefault c0) d ∧
    ((DigestContext.mkFromDigest b assert c0 d).err = none →
      (DigestContext.mkFromDigest b assert c0 d).st.is_initialized = true) ∧
    (∀ e, (DigestContext.mkFromDigest b assert c0 d).err = some e →
      (DigestContext.mkFromDigest b assert c0 d).st.is_initialized = false) := by
  have h := init_err_flag b assert (DigestContext.mkDefault c0) d
  exact ⟨rfl, fun he => h.1 he, fun e he => h.2 e he⟩

/-- C10 witness: the converting constructor with `dMD5` against `bStd`
yields an initialized stream, equal to default-construct-then-init. -/
theorem c10_ctor_equiv_witness :
    DigestContext.mkFromDigest bStd true c0empty dMD5 =
      DigestContext.init bStd true (DigestContext.mkDefault c0empty) dMD5 ∧
    (DigestContext.mkFromDigest bStd true c0empty dMD5).st.is_initialized =
      true :=
  ⟨(c10_ctor_equiv bStd true c0empty dMD5).1,
   (c10_ctor_equiv bStd true c0empty dMD5).2.1 rfl⟩

end PolarSSLCrypto
